import Mathlib

/-!
Shallow embedding of the paper-planes frontend (React/JavaScript) for
verification of the frozen claims about the Semantic Search UI layer:
the API client (src/frontend/src/services/api.js), the SearchForm,
IndexManagement and PaperList components, and the two versions of the
ResultList component (src/unnamed/part_000, src/unnamed/part_001).

Modelling conventions:
- JavaScript strings are Lean `String`; nullable/optional values are `Option`.
- JS truthiness of a string is nonemptiness; of an optional boolean it is
  `some true`; of a number it is nonzero.
- React render output is modelled by the `Html` tree below. A JSX
  conditional chunk such as `cond && <div .../>` contributes a
  `List Html` that is empty when the condition is falsy, mirroring the
  fact that React renders nothing for `false`/`null`/`undefined`/`""`.
- JS numbers appearing in score arithmetic are modelled as exact
  rationals `Rat`; `Math.round` is round-half-up.
-/

namespace PaperPlanes

/-- React render tree: an element with a tag, attribute list (className,
href, ... as rendered) and children, or a text node. -/
inductive Html where
  | el (tag : String) (attrs : List (String × String)) (children : List Html)
  | text (s : String)

/-- JS `Math.round x` for a rational input: round half up, i.e. `⌊x + 1/2⌋`. -/
def jsRound (q : Rat) : Int := ⌊q + 1/2⌋

/-- JS truthiness of a string: `""` is falsy, every other string truthy. -/
def jsTruthyStr (s : String) : Bool := s ≠ ""

/-- JS `s.trim()`: strip whitespace from both ends. -/
def jsTrim (s : String) : String :=
  String.mk
    (((s.toList.dropWhile Char.isWhitespace).reverse.dropWhile Char.isWhitespace).reverse)

/-- `hay.includes(needle)` on character lists. -/
def listHasSub (needle : List Char) : List Char → Bool
  | [] => needle.isEmpty
  | c :: t => needle.isPrefixOf (c :: t) || listHasSub needle t

/-- JS `hay.includes(needle)` for strings. -/
def strHasSub (hay needle : String) : Bool := listHasSub needle.toList hay.toList

/-- `num.toFixed(2)` for a nonnegative rational: the decimal string with two
fractional digits of the value rounded to hundredths. Used for the
`(executionTime / 1000).toFixed(2)` running-time display. -/
def jsToFixed2 (q : Rat) : String :=
  let h : Int := ⌊q * 100 + 1/2⌋
  let whole := h / 100
  let frac := (h % 100).toNat
  toString whole ++ "." ++ (if frac < 10 then "0" else "") ++ toString frac

/-- A matching-paragraph hit as delivered in a paragraph-mode search result:
`{section, paragraph_index, text, score, context}` (§6). `section` is a JS
string that may be empty (the JSX falls back to the literal `"Section"`). -/
structure ParagraphHit where
  sectionLabel : String
  paragraph_index : Nat
  text : String
  score : Rat
  context : Option String
deriving DecidableEq, Repr

/-- A search result item as consumed by the ResultList components:
paper_id, title, authors, publication_year, conference, journal, abstract,
keywords, similarity_score and optional matching_paragraphs (§6). -/
structure SearchResult where
  paper_id : String
  title : String
  authors : Option (List String)
  publication_year : Option Int
  conference : Option String
  journal : Option String
  abstract : Option String
  keywords : Option (List String)
  similarity_score : Rat
  matching_paragraphs : Option (List ParagraphHit)
deriving DecidableEq, Repr

end PaperPlanes

namespace PaperPlanes.RL0

/-!
Embedding of the extended ResultList component (src/unnamed/part_000):
props `{results, totalCount, query, executionTime, useParagraphs = false}`,
state `expandedId : Option String` and `expandedParagraphs : paperId → Bool`.
-/

/-- `formatAuthors` of src/unnamed/part_000 lines 8-13: null/undefined or
empty list gives "Unknown Authors"; one author the name; two authors
"a and b"; three or more "a et al.". -/
def formatAuthors (authors : Option (List String)) : String :=
  match authors with
  | none => "Unknown Authors"
  | some [] => "Unknown Authors"
  | some [a] => a
  | some [a, b] => a ++ " and " ++ b
  | some (a :: _ :: _ :: _) => a ++ " et al."

/-- `formatScore` of src/unnamed/part_000 lines 29-31:
template string of `Math.round(score * 100)` followed by `%`. -/
def formatScore (score : Rat) : String :=
  toString (jsRound (score * 100)) ++ "%"

/-- `query.split(/\s+/).filter(term => term.length > 2)`. Lean splits at
every whitespace character, which introduces extra empty pieces compared to
the JS run-collapsing regex, but all pieces of length at most 2 are filtered
out by the same filter, so the composite is extensionally the JS value. -/
def queryTerms (query : String) : List String :=
  (query.split (fun c => c.isWhitespace)).filter (fun t => 2 < t.length)

/-- Case-insensitive test that `t` is a prefix of the input, used for the
case-insensitive (`i` flag) regex alternation match. -/
def ciPrefix : List Char → List Char → Bool
  | [], _ => true
  | _ :: _, [] => false
  | a :: as, b :: bs => (a.toLower == b.toLower) && ciPrefix as bs

/-- First term of the alternation `(t1|t2|...)` matching at the head of the
input (JS regex alternation is leftmost-alternative); returns the consumed
input slice and the remainder. -/
def matchAt (terms : List (List Char)) (input : List Char) : Option (List Char × List Char) :=
  match terms with
  | [] => none
  | t :: ts =>
    if ciPrefix t input then some (input.take t.length, input.drop t.length)
    else matchAt ts input

/-- `text.split(regex)` where the regex is the capturing alternation of the
query terms with flags `gi`: the output alternates unmatched runs and
captured matches (empty runs included, as in JS). Terms are taken literally
(the JS code does not escape regex metacharacters; queries containing them
are out of modelling scope). Fuel-driven recursion; fuel `|input| + 1`
suffices because the terms are nonempty (length > 2 after the filter). -/
def splitByTerms (terms : List (List Char)) : Nat → List Char → List Char → List String
  | 0, acc, rest => [String.mk (acc.reverse ++ rest)]
  | _ + 1, acc, [] => [String.mk acc.reverse]
  | fuel + 1, acc, c :: t =>
    match matchAt terms (c :: t) with
    | some (m, rest) => String.mk acc.reverse :: String.mk m :: splitByTerms terms fuel [] rest
    | none => splitByTerms terms fuel (c :: acc) t

/-- `part.toLowerCase()`. -/
def strLower (s : String) : String := String.mk (s.toList.map Char.toLower)

/-- `queryTerms.some(term => part.toLowerCase() === term.toLowerCase())`. -/
def isMatchPart (terms : List String) (part : String) : Bool :=
  terms.any (fun t => strLower part == strLower t)

/-- `highlightText` of src/unnamed/part_000 lines 34-56: raw text when the
query or text is falsy or no term is longer than 2 characters, otherwise the
parts of the regex split, each wrapped in a span that is highlighted exactly
when the part equals some term case-insensitively. -/
def highlightText (text query : String) : List Html :=
  if ¬ jsTruthyStr query ∨ ¬ jsTruthyStr text then [Html.text text]
  else
    let terms := queryTerms query
    if terms.length = 0 then [Html.text text]
    else
      (splitByTerms (terms.map String.toList) (text.length + 1) [] text.toList).map
        (fun part =>
          if isMatchPart terms part then
            Html.el "span" [("className", "bg-yellow-200")] [Html.text part]
          else Html.el "span" [] [Html.text part])

/-- One matching-paragraph card (src/unnamed/part_000 lines 145-157):
section label (falling back to the literal `Section` when falsy), 1-based
paragraph number, score pill and highlighted text. -/
def paragraphCard (query : String) (p : ParagraphHit) : Html :=
  Html.el "div" [("className", "bg-white p-3 border border-blue-100 rounded-md")]
    [ Html.el "div" [("className", "flex justify-between items-start mb-1")]
        [ Html.el "span" [("className", "text-xs text-blue-600 font-medium")]
            [ Html.text ((if jsTruthyStr p.sectionLabel then p.sectionLabel else "Section")
                ++ " - Paragraph " ++ toString (p.paragraph_index + 1)) ]
        , Html.el "span" [("className", "text-xs bg-blue-100 text-blue-800 px-2 py-0.5 rounded-full")]
            [ Html.text (formatScore p.score) ] ]
    , Html.el "p" [("className", "text-sm text-gray-700")] (highlightText p.text query) ]

/-- Lines 141-144: the paragraph hits actually listed — all of them when the
per-paper expanded flag is set, else `slice(0, 2)`. -/
def displayedParagraphs (expanded : Bool) (ps : List ParagraphHit) : List ParagraphHit :=
  if expanded then ps else ps.take 2

/-- Chevron-up icon of the show-fewer branch (lines 171-173). -/
def chevronUp : Html :=
  Html.el "svg" [("className", "h-4 w-4 mr-1")] [Html.el "path" [("d", "M5 15l7-7 7 7")] []]

/-- Chevron-down icon of the show-more branch (lines 178-180). -/
def chevronDown : Html :=
  Html.el "svg" [("className", "h-4 w-4 mr-1")] [Html.el "path" [("d", "M19 9l-7 7-7-7")] []]

/-- Lines 161-185: the Show/Hide More control, rendered only when
`matching_paragraphs.length > 2`; collapsed it announces
`Show (length - 2) more matching paragraphs`. -/
def showMoreButton (expanded : Bool) (ps : List ParagraphHit) : List Html :=
  if 2 < ps.length then
    [ Html.el "button" [("className", "text-sm text-blue-600 mt-1 hover:underline flex items-center")]
        (if expanded then [chevronUp, Html.text "Show fewer paragraphs"]
         else
           [ chevronDown
           , Html.text ("Show " ++ toString (ps.length - 2) ++ " more matching paragraphs") ]) ]
  else []

/-- Lines 134-188: the Matching Paragraphs block, rendered only when
`useParagraphs && result.matching_paragraphs && length > 0`. -/
def matchingParagraphsBlock (useParagraphs : Bool) (expandedPars : Bool) (query : String)
    (r : SearchResult) : List Html :=
  match r.matching_paragraphs with
  | some ps =>
    if useParagraphs ∧ 0 < ps.length then
      [ Html.el "div" [("className", "mb-3")]
          [ Html.el "h4" [("className", "text-sm font-semibold text-gray-700 mb-1")]
              [Html.text "Matching Paragraphs"]
          , Html.el "div" [("className", "space-y-3 mt-2")]
              ((displayedParagraphs expandedPars ps).map (paragraphCard query)
                ++ showMoreButton expandedPars ps) ] ]
    else []
  | none => []

/-- `p.context && p.context !== p.text` for one hit (line 192). -/
def hasDistinctContext (p : ParagraphHit) : Bool :=
  match p.context with
  | some c => c ≠ "" && c ≠ p.text
  | none => false

/-- Lines 191-202: the Paragraph Context block, rendered when paragraph mode
is on, the paper is paragraph-expanded and some hit has a context differing
from its text; displays the first hit's context. -/
def paragraphContextBlock (useParagraphs : Bool) (expandedPars : Bool)
    (r : SearchResult) : List Html :=
  match r.matching_paragraphs with
  | some ps =>
    if useParagraphs ∧ expandedPars ∧ ps.any hasDistinctContext then
      [ Html.el "div" [("className", "mb-3")]
          [ Html.el "div" [("className", "flex items-center mb-1")]
              [ Html.el "h4" [("className", "text-sm font-semibold text-gray-700")]
                  [Html.text "Paragraph Context"]
              , Html.el "span" [("className", "ml-2 text-xs text-gray-500")]
                  [Html.text "(Surrounding paragraphs for better understanding)"] ]
          , Html.el "div"
              [("className", "bg-gray-100 p-3 rounded-md text-sm text-gray-700 whitespace-pre-wrap")]
              (match ps with
               | p0 :: _ => (match p0.context with | some c => [Html.text c] | none => [])
               | [] => []) ] ]
    else []
  | none => []

/-- Lines 104-114: the Abstract block — in paragraph mode the abstract is
highlighted, otherwise shown raw. -/
def abstractBlock (useParagraphs : Bool) (query : String) (r : SearchResult) : List Html :=
  match r.abstract with
  | some a =>
    if a ≠ "" then
      [ Html.el "div" [("className", "mb-3")]
          [ Html.el "h4" [("className", "text-sm font-semibold text-gray-700 mb-1")]
              [Html.text "Abstract"]
          , Html.el "p" [("className", "text-sm text-gray-600")]
              (if useParagraphs then highlightText a query else [Html.text a]) ] ]
    else []
  | none => []

/-- Lines 117-131: the Keywords block of tag pills. -/
def keywordsBlock (r : SearchResult) : List Html :=
  match r.keywords with
  | some ks =>
    if 0 < ks.length then
      [ Html.el "div" [("className", "mb-3")]
          [ Html.el "h4" [("className", "text-sm font-semibold text-gray-700 mb-1")]
              [Html.text "Keywords"]
          , Html.el "div" [("className", "flex flex-wrap gap-1")]
              (ks.map (fun k =>
                Html.el "span"
                  [("className", "bg-green-100 text-green-800 text-xs px-2 py-1 rounded-full")]
                  [Html.text k])) ] ]
    else []
  | none => []

/-- Lines 205-214: the Download PDF link row. -/
def downloadRow (r : SearchResult) : Html :=
  Html.el "div" [("className", "flex justify-end mt-3")]
    [ Html.el "a"
        [ ("href", "/api/papers/download/" ++ r.paper_id), ("target", "_blank")
        , ("rel", "noopener noreferrer")
        , ("className", "px-3 py-1 bg-blue-600 text-white text-sm rounded hover:bg-blue-700 transition-colors") ]
        [Html.text "Download PDF"] ]

/-- Lines 87-92: the authors/year/conference/journal byline. A zero
publication year is falsy in JS and React then renders the number 0 itself;
empty conference/journal strings render nothing. -/
def bylineChildren (r : SearchResult) : List Html :=
  [Html.text (formatAuthors r.authors)]
    ++ (match r.publication_year with
        | some y => if y ≠ 0 then [Html.text (" • " ++ toString y)] else [Html.text "0"]
        | none => [])
    ++ (match r.conference with
        | some c => if c ≠ "" then [Html.text (" • " ++ c)] else []
        | none => [])
    ++ (match r.journal with
        | some j => if j ≠ "" then [Html.text (" • " ++ j)] else []
        | none => [])

/-- Lines 81-100: the always-visible card header with title, byline and
similarity score. -/
def cardHeader (r : SearchResult) : Html :=
  Html.el "div" [("className", "flex items-center justify-between p-4 cursor-pointer")]
    [ Html.el "div" [("className", "flex-1")]
        [ Html.el "h3" [("className", "text-lg font-medium text-gray-900")] [Html.text r.title]
        , Html.el "p" [("className", "text-sm text-gray-600 mt-1")] (bylineChildren r) ]
    , Html.el "div" [("className", "ml-4 flex flex-col items-end")]
        [ Html.el "span" [("className", "text-blue-600 font-semibold")]
            [Html.text (formatScore r.similarity_score)]
        , Html.el "span" [("className", "text-sm text-gray-500")] [Html.text "match"] ] ]

/-- Lines 102-216: the expanded detail section, shown when `expandedId`
equals the paper id. -/
def expandedSection (useParagraphs : Bool) (expandedId : Option String)
    (expandedPars : String → Bool) (query : String) (r : SearchResult) : List Html :=
  if expandedId = some r.paper_id then
    [ Html.el "div" [("className", "p-4 border-t bg-gray-50")]
        (abstractBlock useParagraphs query r
          ++ keywordsBlock r
          ++ matchingParagraphsBlock useParagraphs (expandedPars r.paper_id) query r
          ++ paragraphContextBlock useParagraphs (expandedPars r.paper_id) r
          ++ [downloadRow r]) ]
  else []

/-- Lines 77-217: one result card. -/
def resultCard (useParagraphs : Bool) (expandedId : Option String)
    (expandedPars : String → Bool) (query : String) (r : SearchResult) : Html :=
  Html.el "div" [("className", "border rounded-lg overflow-hidden hover:shadow-md transition-shadow")]
    (cardHeader r :: expandedSection useParagraphs expandedId expandedPars query r)

/-- Lines 70-73: the result-count header. -/
def resultsHeader (totalCount : Int) (query : String) (executionTime : Rat) : Html :=
  Html.el "div" [("className", "mb-4 text-sm text-gray-600")]
    [ Html.text ("Found " ++ toString totalCount ++ " "
        ++ (if totalCount = 1 then "result" else "results")
        ++ " for \"" ++ query ++ "\" (" ++ jsToFixed2 (executionTime / 1000) ++ " seconds)") ]

/-- Lines 59-66: the empty-results message card. -/
def emptyResults (query : String) : Html :=
  Html.el "div" [("className", "bg-white shadow-md rounded-lg p-6 text-center")]
    [ Html.el "p" [("className", "text-gray-600")]
        [Html.text ("No results found for \"" ++ query ++ "\"")]
    , Html.el "p" [("className", "text-sm text-gray-500 mt-2")]
        [Html.text "Try adjusting your search terms or filters"] ]

/-- The full render of the extended ResultList (src/unnamed/part_000),
as a function of its props and of the `expandedId` / `expandedParagraphs`
component state. -/
def render (results : List SearchResult) (totalCount : Int) (query : String)
    (executionTime : Rat) (useParagraphs : Bool) (expandedId : Option String)
    (expandedPars : String → Bool) : Html :=
  if results.length = 0 then emptyResults query
  else
    Html.el "div" [("className", "bg-white shadow-md rounded-lg p-6")]
      [ resultsHeader totalCount query executionTime
      , Html.el "div" [("className", "space-y-4")]
          (results.map (resultCard useParagraphs expandedId expandedPars query)) ]

end PaperPlanes.RL0

namespace PaperPlanes.RL1

/-!
Embedding of the plain ResultList component (src/unnamed/part_001):
props `{results, totalCount, query, executionTime}`, state
`expandedId : Option String`. No paragraph mode, no highlighting.
-/

/-- `formatAuthors` of src/unnamed/part_001 lines 7-12 (textually identical
to the part_000 copy). -/
def formatAuthors (authors : Option (List String)) : String :=
  match authors with
  | none => "Unknown Authors"
  | some [] => "Unknown Authors"
  | some [a] => a
  | some [a, b] => a ++ " and " ++ b
  | some (a :: _ :: _ :: _) => a ++ " et al."

/-- `formatScore` of src/unnamed/part_001 lines 20-22. -/
def formatScore (score : Rat) : String :=
  toString (jsRound (score * 100)) ++ "%"

/-- Lines 70-75: the Abstract block (always the raw abstract). -/
def abstractBlock (r : SearchResult) : List Html :=
  match r.abstract with
  | some a =>
    if a ≠ "" then
      [ Html.el "div" [("className", "mb-3")]
          [ Html.el "h4" [("className", "text-sm font-semibold text-gray-700 mb-1")]
              [Html.text "Abstract"]
          , Html.el "p" [("className", "text-sm text-gray-600")] [Html.text a] ] ]
    else []
  | none => []

/-- Lines 77-91: the Keywords block. -/
def keywordsBlock (r : SearchResult) : List Html :=
  match r.keywords with
  | some ks =>
    if 0 < ks.length then
      [ Html.el "div" [("className", "mb-3")]
          [ Html.el "h4" [("className", "text-sm font-semibold text-gray-700 mb-1")]
              [Html.text "Keywords"]
          , Html.el "div" [("className", "flex flex-wrap gap-1")]
              (ks.map (fun k =>
                Html.el "span"
                  [("className", "bg-green-100 text-green-800 text-xs px-2 py-1 rounded-full")]
                  [Html.text k])) ] ]
    else []
  | none => []

/-- Lines 93-102: the Download PDF link row. -/
def downloadRow (r : SearchResult) : Html :=
  Html.el "div" [("className", "flex justify-end mt-3")]
    [ Html.el "a"
        [ ("href", "/api/papers/download/" ++ r.paper_id), ("target", "_blank")
        , ("rel", "noopener noreferrer")
        , ("className", "px-3 py-1 bg-blue-600 text-white text-sm rounded hover:bg-blue-700 transition-colors") ]
        [Html.text "Download PDF"] ]

/-- Lines 53-58: the authors/year/conference/journal byline. -/
def bylineChildren (r : SearchResult) : List Html :=
  [Html.text (formatAuthors r.authors)]
    ++ (match r.publication_year with
        | some y => if y ≠ 0 then [Html.text (" • " ++ toString y)] else [Html.text "0"]
        | none => [])
    ++ (match r.conference with
        | some c => if c ≠ "" then [Html.text (" • " ++ c)] else []
        | none => [])
    ++ (match r.journal with
        | some j => if j ≠ "" then [Html.text (" • " ++ j)] else []
        | none => [])

/-- Lines 47-66: the always-visible card header. -/
def cardHeader (r : SearchResult) : Html :=
  Html.el "div" [("className", "flex items-center justify-between p-4 cursor-pointer")]
    [ Html.el "div" [("className", "flex-1")]
        [ Html.el "h3" [("className", "text-lg font-medium text-gray-900")] [Html.text r.title]
        , Html.el "p" [("className", "text-sm text-gray-600 mt-1")] (bylineChildren r) ]
    , Html.el "div" [("className", "ml-4 flex flex-col items-end")]
        [ Html.el "span" [("className", "text-blue-600 font-semibold")]
            [Html.text (formatScore r.similarity_score)]
        , Html.el "span" [("className", "text-sm text-gray-500")] [Html.text "match"] ] ]

/-- Lines 68-104: the expanded detail section. -/
def expandedSection (expandedId : Option String) (r : SearchResult) : List Html :=
  if expandedId = some r.paper_id then
    [ Html.el "div" [("className", "p-4 border-t bg-gray-50")]
        (abstractBlock r ++ keywordsBlock r ++ [downloadRow r]) ]
  else []

/-- Lines 43-105: one result card. -/
def resultCard (expandedId : Option String) (r : SearchResult) : Html :=
  Html.el "div" [("className", "border rounded-lg overflow-hidden hover:shadow-md transition-shadow")]
    (cardHeader r :: expandedSection expandedId r)

/-- Lines 36-39: the result-count header. -/
def resultsHeader (totalCount : Int) (query : String) (executionTime : Rat) : Html :=
  Html.el "div" [("className", "mb-4 text-sm text-gray-600")]
    [ Html.text ("Found " ++ toString totalCount ++ " "
        ++ (if totalCount = 1 then "result" else "results")
        ++ " for \"" ++ query ++ "\" (" ++ jsToFixed2 (executionTime / 1000) ++ " seconds)") ]

/-- Lines 25-32: the empty-results message card. -/
def emptyResults (query : String) : Html :=
  Html.el "div" [("className", "bg-white shadow-md rounded-lg p-6 text-center")]
    [ Html.el "p" [("className", "text-gray-600")]
        [Html.text ("No results found for \"" ++ query ++ "\"")]
    , Html.el "p" [("className", "text-sm text-gray-500 mt-2")]
        [Html.text "Try adjusting your search terms or filters"] ]

/-- The full render of the plain ResultList (src/unnamed/part_001), as a
function of its props and the `expandedId` component state. -/
def render (results : List SearchResult) (totalCount : Int) (query : String)
    (executionTime : Rat) (expandedId : Option String) : Html :=
  if results.length = 0 then emptyResults query
  else
    Html.el "div" [("className", "bg-white shadow-md rounded-lg p-6")]
      [ resultsHeader totalCount query executionTime
      , Html.el "div" [("className", "space-y-4")]
          (results.map (resultCard expandedId)) ]

end PaperPlanes.RL1

namespace PaperPlanes

/-!
Embedding of the API client (src/frontend/src/services/api.js), the
SearchForm component (src/frontend/src/components/SearchForm.jsx), the
IndexManagement component (src/frontend/src/components/IndexManagement.jsx)
and the PaperList component (src/frontend/src/components/PaperList.jsx).
-/

/-- A JSON value, as produced by `JSON.stringify` / `response.json()`. -/
inductive Json where
  | null
  | bool (b : Bool)
  | num (n : Int)
  | str (s : String)
  | arr (xs : List Json)
  | obj (fields : List (String × Json))

/-- JS truthiness of a value: `null`/`undefined`, `false`, `0` and `""` are
falsy; every object and array is truthy. -/
def jsTruthyJson : Json → Bool
  | .null => false
  | .bool b => b
  | .num n => n ≠ 0
  | .str s => s ≠ ""
  | .arr _ => true
  | .obj _ => true

/-- JS property access `d[k]`: a field of an object, `undefined` (`none`)
otherwise — in particular `undefined` on strings and numbers. -/
def jsGetField (d : Json) (k : String) : Option Json :=
  match d with
  | .obj kvs => (kvs.find? (fun kv => kv.1 == k)).map (fun kv => kv.2)
  | _ => none

mutual
/-- JS `String(v)` coercion as used by `new Error(message)`. -/
def jsToStringJson : Json → String
  | .str s => s
  | .num n => toString n
  | .bool b => if b then "true" else "false"
  | .null => "null"
  | .arr xs => jsToStringList xs
  | .obj _ => "[object Object]"
/-- JS array-to-string: elements joined with commas. -/
def jsToStringList : List Json → String
  | [] => ""
  | [x] => jsToStringJson x
  | x :: y :: t => jsToStringJson x ++ "," ++ jsToStringList (y :: t)
end

/-- `d.k` collapsed to a value: `undefined` is collapsed to `null` — both are
falsy and lose against `||`, and only the winning truthy value or the final
string fallback is ever stringified, so the collapse is sound for
`handleResponse`. -/
def fieldOr (d : Json) (k : String) : Json :=
  match jsGetField d k with
  | some v => v
  | none => Json.null

/-- JS `a || b` on values. -/
def jsOr (a b : Json) : Json := if jsTruthyJson a then a else b

/-- The keys of a JSON object body (empty for non-objects). -/
def jsonKeys : Json → List String
  | .obj kvs => kvs.map (fun kv => kv.1)
  | _ => []

/-- A fetch `Response` as consumed by `handleResponse`: status line, the
`content-type` header (absent allowed), and the body under both parses
(`response.json()` and `response.text()`). -/
structure FetchResponse where
  ok : Bool
  status : Int
  statusText : String
  contentType : Option String
  jsonBody : Json
  textBody : String

/-- `contentType && contentType.includes('application/json')` (api.js
line 18): false when the header is absent (`null` is falsy). -/
def contentTypeIsJson (r : FetchResponse) : Bool :=
  match r.contentType with
  | some ct => strHasSub ct "application/json"
  | none => false

/-- api.js lines 14-22: the parsed body — JSON when the content-type header
exists and includes `application/json`, raw text otherwise. -/
def responseData (r : FetchResponse) : Json :=
  if contentTypeIsJson r then r.jsonBody else Json.str r.textBody

/-- `handleResponse` of api.js lines 13-32: returns the parsed body on
`response.ok`, otherwise throws an Error whose message is
`data.detail || data.message || 'Error: status statusText'`. -/
def handleResponse (r : FetchResponse) : Except String Json :=
  let data := responseData r
  if r.ok then Except.ok data
  else
    Except.error (jsToStringJson
      (jsOr (fieldOr data "detail")
        (jsOr (fieldOr data "message")
          (Json.str ("Error: " ++ toString r.status ++ " " ++ r.statusText)))))

/-- `API_BASE_URL` (api.js line 5) with the `VITE_API_BASE_URL` environment
override unset: the fallback `/api`. -/
def API_BASE_URL : String := "/api"

/-- The argument object of `api.search`: `query`, optional `filters`
(already-built filter object, kept opaque as JSON here), the camelCase
`useParagraphs` flag, and optional `limit`/`offset`. `none` models an
absent (`undefined`) property. -/
structure SearchRequest where
  query : String
  filters : Option Json
  useParagraphs : Option Bool
  limit : Option Int
  offset : Option Int

/-- `JSON.stringify(searchRequest)` (api.js line 57): note the body is the
whole `searchRequest` — including the camelCase `useParagraphs` property
when supplied — even though line 49 destructured it away into the unused
`requestParams`. Absent (`undefined`) properties are omitted. -/
def serializeSearchRequest (r : SearchRequest) : Json :=
  Json.obj ([("query", Json.str r.query)]
    ++ (match r.filters with | some f => [("filters", f)] | none => [])
    ++ (match r.useParagraphs with | some b => [("useParagraphs", Json.bool b)] | none => [])
    ++ (match r.limit with | some n => [("limit", Json.num n)] | none => [])
    ++ (match r.offset with | some n => [("offset", Json.num n)] | none => []))

/-- An outgoing HTTP request issued through `fetch`. -/
structure HttpRequest where
  method : String
  url : String
  headers : List (String × String)
  body : Option Json

/-- `api.search` of api.js lines 47-61: POST to
`${API_BASE_URL}/search${queryParam}` where `queryParam` is
`?use_paragraphs=true` exactly when `useParagraphs` is truthy, with JSON
content type and `JSON.stringify(searchRequest)` as body. -/
def apiSearch (r : SearchRequest) : HttpRequest :=
  let queryParam := if r.useParagraphs = some true then "?use_paragraphs=true" else ""
  { method := "POST"
  , url := API_BASE_URL ++ "/search" ++ queryParam
  , headers := [("Content-Type", "application/json")]
  , body := some (serializeSearchRequest r) }

/-- The method names the exported `api` object (api.js lines 37-122)
actually defines. -/
def apiMethods : List String :=
  ["search", "getFilterOptions", "uploadPaper", "listAllPapers", "deletePaper",
   "getPaperDownloadUrl"]

/-- Membership of a method name in the exported `api` object. -/
def apiDefines (m : String) : Bool := apiMethods.contains m

/-- The `api.*` methods the IndexManagement component invokes
(IndexManagement.jsx lines 20, 49 and 65). -/
def indexManagementApiCalls : List String :=
  ["getIndexStatus", "rebuildIndexes", "rollbackIndex"]

end PaperPlanes

namespace PaperPlanes.SearchForm

/-- The SearchForm filter state (SearchForm.jsx lines 6-13): the year bounds
are the raw input strings; authors and keywords are string lists;
conference and journal are raw input strings. -/
structure FilterState where
  year_min : String
  year_max : String
  authors : List String
  keywords : List String
  conference : String
  journal : String
deriving DecidableEq, Repr

/-- The initial (and reset, lines 78-87) filter state. -/
def initialFilters : FilterState :=
  { year_min := "", year_max := "", authors := [], keywords := []
  , conference := "", journal := "" }

/-- Longest leading digit run of a character list. -/
def leadingDigits (cs : List Char) : List Char := cs.takeWhile Char.isDigit

/-- Numeric value of a digit run. -/
def digitsVal (ds : List Char) : Nat := ds.foldl (fun a c => 10 * a + (c.toNat - 48)) 0

/-- Value of the longest leading digit run; `none` when there is none. -/
def parseDigitsVal (cs : List Char) : Option Nat :=
  let ds := leadingDigits cs
  if ds.isEmpty then none else some (digitsVal ds)

/-- JS `parseInt(s)` with automatic radix: skip leading whitespace, optional
sign, value of the longest leading digit run; `none` models `NaN`. The
automatic `0x` hex prefix is not modelled — the year fields are decimal
number inputs. -/
def parseIntJS (s : String) : Option Int :=
  match (jsTrim s).toList with
  | '-' :: rest => (parseDigitsVal rest).map (fun n => -(n : Int))
  | '+' :: rest => (parseDigitsVal rest).map (fun n => (n : Int))
  | cs => (parseDigitsVal cs).map (fun n => (n : Int))

/-- A filter-field value as placed in the submitted request: `null`, a
number (`int`, or `nan` for a non-numeric parse), a string list, or a
string. -/
inductive SentVal where
  | null
  | int (n : Int)
  | nan
  | strList (xs : List String)
  | str (s : String)
deriving DecidableEq, Repr

/-- `filters.year ? parseInt(filters.year) : null` (lines 22-23). -/
def yearSent (s : String) : SentVal :=
  if jsTruthyStr s then
    match parseIntJS s with
    | some n => SentVal.int n
    | none => SentVal.nan
  else SentVal.null

/-- The filters object built by `handleSubmit` (SearchForm.jsx lines 21-28). -/
structure SentFilters where
  year_min : SentVal
  year_max : SentVal
  authors : SentVal
  keywords : SentVal
  conference : SentVal
  journal : SentVal
deriving DecidableEq, Repr

/-- Lines 21-28: each empty field is sent as `null`; supplied year bounds
are parsed with `parseInt`; nonempty author/keyword lists are sent as-is;
nonempty conference/journal strings are sent as-is. -/
def submittedFilters (f : FilterState) : SentFilters :=
  { year_min := yearSent f.year_min
  , year_max := yearSent f.year_max
  , authors := if 0 < f.authors.length then SentVal.strList f.authors else SentVal.null
  , keywords := if 0 < f.keywords.length then SentVal.strList f.keywords else SentVal.null
  , conference := if jsTruthyStr f.conference then SentVal.str f.conference else SentVal.null
  , journal := if jsTruthyStr f.journal then SentVal.str f.journal else SentVal.null }

/-- `handleSubmit` (lines 16-31): submits `{query, filters}` only when the
trimmed query is nonempty (the query itself is sent untrimmed). -/
def handleSubmit (query : String) (f : FilterState) : Option (String × SentFilters) :=
  if jsTruthyStr (jsTrim query) then some (query, submittedFilters f) else none

/-- `addAuthorFilter` (lines 42-49): append only a truthy, not-yet-present
author. -/
def addAuthorFilter (author : String) (authors : List String) : List String :=
  if jsTruthyStr author ∧ author ∉ authors then authors ++ [author] else authors

/-- `removeAuthorFilter` (lines 52-57): keep the entries different from the
removed author. -/
def removeAuthorFilter (author : String) (authors : List String) : List String :=
  authors.filter (fun a => a ≠ author)

/-- `addKeywordFilter` (lines 60-67). -/
def addKeywordFilter (keyword : String) (keywords : List String) : List String :=
  if jsTruthyStr keyword ∧ keyword ∉ keywords then keywords ++ [keyword] else keywords

/-- `removeKeywordFilter` (lines 70-75). -/
def removeKeywordFilter (keyword : String) (keywords : List String) : List String :=
  keywords.filter (fun k => k ≠ keyword)

/-- The author lists reachable in the component: the initial empty list,
closed under add, remove, and reset (which yields the empty list again).
The keyword list evolves by the same functions. -/
inductive ReachableList : List String → Prop where
  | init : ReachableList []
  | add (a : String) {l : List String} : ReachableList l → ReachableList (addAuthorFilter a l)
  | remove (a : String) {l : List String} : ReachableList l → ReachableList (removeAuthorFilter a l)
  | reset {l : List String} : ReachableList l → ReachableList []

end PaperPlanes.SearchForm

namespace PaperPlanes.IndexManagement

/-- The `index` object of the status response
(`{total_documents, last_updated, using_hybrid}`, §6). -/
structure IndexInfo where
  total_documents : Int
  last_updated : Option String
  using_hybrid : Option Bool
deriving DecidableEq, Repr

/-- The optional `backup_info` object of the status response. -/
structure BackupInfo where
  timestamp : Option String
deriving DecidableEq, Repr

/-- The `GET index/status` response as held in the `indexStatus` state. -/
structure StatusResponse where
  index : IndexInfo
  has_backup : Bool
  backup_info : Option BackupInfo
deriving DecidableEq, Repr

/-- The component state relevant to the rollback button
(IndexManagement.jsx lines 5-11): the two in-flight flags and the fetched
status (`none` before any successful fetch). -/
structure ComponentState where
  isRebuildingIndex : Bool
  isRollingBack : Bool
  indexStatus : Option StatusResponse
deriving DecidableEq, Repr

/-- `indexStatus?.has_backup` (optional chaining): `undefined` — modelled
falsy — when no status is loaded. -/
def optHasBackup (s : ComponentState) : Bool :=
  match s.indexStatus with
  | some st => st.has_backup
  | none => false

/-- The rollback button `disabled` predicate (IndexManagement.jsx line 163):
`isRebuildingIndex || isRollingBack || !indexStatus?.has_backup`. -/
def rollbackButtonDisabled (s : ComponentState) : Bool :=
  s.isRebuildingIndex || s.isRollingBack || !(optHasBackup s)

end PaperPlanes.IndexManagement

namespace PaperPlanes.PaperListComp

/-- `formatAuthors` of PaperList.jsx lines 94-99 (textually identical to the
ResultList copies). -/
def formatAuthors (authors : Option (List String)) : String :=
  match authors with
  | none => "Unknown Authors"
  | some [] => "Unknown Authors"
  | some [a] => a
  | some [a, b] => a ++ " and " ++ b
  | some (a :: _ :: _ :: _) => a ++ " et al."

end PaperPlanes.PaperListComp

namespace PaperPlanes

/-- The three `formatAuthors` copies agree: plain ResultList vs extended. -/
theorem formatAuthors_RL1_eq_RL0 (as : Option (List String)) :
    RL1.formatAuthors as = RL0.formatAuthors as := by
  rcases as with _ | ⟨_ | ⟨a, _ | ⟨b, _ | t⟩⟩⟩ <;> rfl

/-- The three `formatAuthors` copies agree: PaperList vs extended ResultList. -/
theorem formatAuthors_PL_eq_RL0 (as : Option (List String)) :
    PaperListComp.formatAuthors as = RL0.formatAuthors as := by
  rcases as with _ | ⟨_ | ⟨a, _ | ⟨b, _ | t⟩⟩⟩ <;> rfl

/-- The two `formatScore` copies agree. -/
theorem formatScore_RL1_eq_RL0 (s : Rat) : RL1.formatScore s = RL0.formatScore s := rfl

/-- Claim C8: `formatAuthors` is total (it is a Lean function, so it cannot
throw), returns `Unknown Authors` on null/undefined/empty input, the sole
name for one author, `a and b` for two, `a et al.` for three or more, and
its value depends only on the length and the first two elements of the
list; all three source copies (both ResultLists and PaperList) agree. -/
theorem claim_C8_formatAuthors :
    (RL0.formatAuthors none = "Unknown Authors") ∧
    (RL0.formatAuthors (some []) = "Unknown Authors") ∧
    (∀ a : String, RL0.formatAuthors (some [a]) = a) ∧
    (∀ a b : String, RL0.formatAuthors (some [a, b]) = a ++ " and " ++ b) ∧
    (∀ (a b c : String) (t : List String),
      RL0.formatAuthors (some (a :: b :: c :: t)) = a ++ " et al.") ∧
    (∀ as bs : List String, as.length = bs.length → as.take 2 = bs.take 2 →
      RL0.formatAuthors (some as) = RL0.formatAuthors (some bs)) ∧
    (∀ as : Option (List String),
      RL1.formatAuthors as = RL0.formatAuthors as ∧
      PaperListComp.formatAuthors as = RL0.formatAuthors as) := by
  refine ⟨rfl, rfl, fun a => rfl, fun a b => rfl, fun a b c t => rfl, ?_, fun as =>
    ⟨formatAuthors_RL1_eq_RL0 as, formatAuthors_PL_eq_RL0 as⟩⟩
  intro as bs hlen htake
  rcases as with _ | ⟨a1, _ | ⟨a2, _ | ⟨a3, as''⟩⟩⟩ <;>
    rcases bs with _ | ⟨b1, _ | ⟨b2, _ | ⟨b3, bs''⟩⟩⟩ <;>
    simp_all [RL0.formatAuthors]

/-- Witness for claim C8 at concrete inputs. -/
theorem claim_C8_formatAuthors_witness :
    RL0.formatAuthors (some ["Ada", "Bob", "Cyd", "Dee"]) = "Ada et al." ∧
    RL0.formatAuthors (some ["Ada", "Bob", "Cyd"]) =
      RL0.formatAuthors (some ["Ada", "Bob", "Eve"]) :=
  ⟨claim_C8_formatAuthors.2.2.2.2.1 "Ada" "Bob" "Cyd" ["Dee"],
   claim_C8_formatAuthors.2.2.2.2.2.1 ["Ada", "Bob", "Cyd"] ["Ada", "Bob", "Eve"]
     (by decide) (by decide)⟩

/-- Claim C7: for scores in [0,1], `formatScore` is the decimal string of
`Math.round(score * 100)` followed by a percent sign, an integer between 0
and 100, and the rounded percentage is monotone non-decreasing in the score;
both source copies agree. -/
theorem claim_C7_formatScore :
    ∀ s t : Rat, 0 ≤ s → s ≤ 1 → 0 ≤ t → t ≤ 1 → s ≤ t →
      RL0.formatScore s = toString (jsRound (s * 100)) ++ "%" ∧
      RL1.formatScore s = RL0.formatScore s ∧
      0 ≤ jsRound (s * 100) ∧ jsRound (s * 100) ≤ 100 ∧
      jsRound (s * 100) ≤ jsRound (t * 100) := by
  intro s t hs0 hs1 _ ht1 hst
  refine ⟨rfl, formatScore_RL1_eq_RL0 s, ?_, ?_, ?_⟩
  · exact Int.floor_nonneg.mpr (by nlinarith)
  · have h1 : s * 100 + 1 / 2 ≤ (201 : Rat) / 2 := by nlinarith
    have h2 : (⌊(201 : Rat) / 2⌋ : Int) = 100 := by
      rw [Int.floor_eq_iff]
      norm_num
    calc jsRound (s * 100) = ⌊s * 100 + 1 / 2⌋ := rfl
      _ ≤ ⌊(201 : Rat) / 2⌋ := Int.floor_mono h1
      _ = 100 := h2
  · exact Int.floor_mono (by nlinarith)

/-- Witness for claim C7 at s = 1/2, t = 3/4. -/
theorem claim_C7_formatScore_witness :
    RL0.formatScore (1 / 2 : Rat) = toString (jsRound ((1 / 2 : Rat) * 100)) ++ "%" ∧
    RL1.formatScore (1 / 2 : Rat) = RL0.formatScore (1 / 2 : Rat) ∧
    0 ≤ jsRound ((1 / 2 : Rat) * 100) ∧ jsRound ((1 / 2 : Rat) * 100) ≤ 100 ∧
    jsRound ((1 / 2 : Rat) * 100) ≤ jsRound ((3 / 4 : Rat) * 100) :=
  claim_C7_formatScore (1 / 2) (3 / 4) (by norm_num) (by norm_num) (by norm_num)
    (by norm_num) (by norm_num)

end PaperPlanes

namespace PaperPlanes

/-- Claim C3: in the collapsed paragraph view the extended ResultList lists
`slice(0, 2)` of the matching paragraphs — exactly `min(m, 2)` cards — and
renders the Show-more control, announcing `m - 2` more, exactly when
`m > 2`; the last conjunct ties this to the full Matching Paragraphs block
of the render. -/
theorem claim_C3_paragraph_cap :
    ∀ (ps : List ParagraphHit) (query : String),
      ((RL0.displayedParagraphs false ps).map (RL0.paragraphCard query)).length
          = min ps.length 2 ∧
      (2 < ps.length →
        RL0.showMoreButton false ps =
          [ Html.el "button"
              [("className", "text-sm text-blue-600 mt-1 hover:underline flex items-center")]
              [ RL0.chevronDown
              , Html.text ("Show " ++ toString (ps.length - 2)
                  ++ " more matching paragraphs") ] ]) ∧
      (ps.length ≤ 2 → RL0.showMoreButton false ps = []) ∧
      (∀ r : SearchResult, r.matching_paragraphs = some ps → 0 < ps.length →
        RL0.matchingParagraphsBlock true false query r =
          [ Html.el "div" [("className", "mb-3")]
              [ Html.el "h4" [("className", "text-sm font-semibold text-gray-700 mb-1")]
                  [Html.text "Matching Paragraphs"]
              , Html.el "div" [("className", "space-y-3 mt-2")]
                  ((ps.take 2).map (RL0.paragraphCard query)
                    ++ RL0.showMoreButton false ps) ] ]) := by
  intro ps query
  refine ⟨?_, ?_, ?_, ?_⟩
  · simp [RL0.displayedParagraphs, Nat.min_comm]
  · intro h
    simp [RL0.showMoreButton, h]
  · intro h
    simp [RL0.showMoreButton, Nat.not_lt.mpr h]
  · intro r hmp hpos
    simp [RL0.matchingParagraphsBlock, hmp, hpos, RL0.displayedParagraphs]

/-- Witness for claim C3 on a five-hit list. -/
theorem claim_C3_paragraph_cap_witness :
    ((RL0.displayedParagraphs false (List.replicate 5 ⟨"Intro", 0, "t", 1/2, none⟩)).map
        (RL0.paragraphCard "q")).length
      = min (List.replicate 5 (⟨"Intro", 0, "t", 1/2, none⟩ : ParagraphHit)).length 2 ∧
    RL0.showMoreButton false (List.replicate 5 ⟨"Intro", 0, "t", 1/2, none⟩) =
      [ Html.el "button"
          [("className", "text-sm text-blue-600 mt-1 hover:underline flex items-center")]
          [ RL0.chevronDown
          , Html.text ("Show "
              ++ toString ((List.replicate 5 (⟨"Intro", 0, "t", 1/2, none⟩ : ParagraphHit)).length - 2)
              ++ " more matching paragraphs") ] ] :=
  ⟨(claim_C3_paragraph_cap (List.replicate 5 ⟨"Intro", 0, "t", 1/2, none⟩) "q").1,
   (claim_C3_paragraph_cap (List.replicate 5 ⟨"Intro", 0, "t", 1/2, none⟩) "q").2.1
     (by simp)⟩

/-- Claim C4: the rollback button is disabled whenever `has_backup` is
false, no status is loaded, or a rebuild/rollback is in flight; and whenever
it is enabled a fetched status with `has_backup = true` exists and nothing
is in flight — so the gated UI never issues a rollback without a backup. -/
theorem claim_C4_rollback_gating :
    ∀ s : IndexManagement.ComponentState,
      (s.indexStatus = none → IndexManagement.rollbackButtonDisabled s = true) ∧
      (∀ st, s.indexStatus = some st → st.has_backup = false →
        IndexManagement.rollbackButtonDisabled s = true) ∧
      (s.isRebuildingIndex = true → IndexManagement.rollbackButtonDisabled s = true) ∧
      (s.isRollingBack = true → IndexManagement.rollbackButtonDisabled s = true) ∧
      (IndexManagement.rollbackButtonDisabled s = false →
        s.isRebuildingIndex = false ∧ s.isRollingBack = false ∧
        ∃ st, s.indexStatus = some st ∧ st.has_backup = true) := by
  intro s
  obtain ⟨rb, rl, st⟩ := s
  cases st <;>
    simp_all [IndexManagement.rollbackButtonDisabled, IndexManagement.optHasBackup]

/-- Witness for claim C4: with no backup the button is disabled. -/
theorem claim_C4_rollback_gating_witness :
    IndexManagement.rollbackButtonDisabled
      { isRebuildingIndex := false, isRollingBack := false
      , indexStatus := some { index := { total_documents := 3, last_updated := none
                                       , using_hybrid := some false }
                            , has_backup := false, backup_info := none } } = true :=
  (claim_C4_rollback_gating _).2.1 _ rfl rfl

end PaperPlanes

namespace PaperPlanes.SearchForm

/-- Claim C5: every filter field left empty (empty year strings, empty
author/keyword lists, empty conference/journal strings) is submitted as
`null`, and a supplied year bound is submitted as its parsed integer — so no
empty-valued field is ever transmitted as a non-null criterion. -/
theorem claim_C5_empty_filters_null :
    ∀ f : FilterState,
      (f.year_min = "" → (submittedFilters f).year_min = SentVal.null) ∧
      (f.year_max = "" → (submittedFilters f).year_max = SentVal.null) ∧
      (f.authors = [] → (submittedFilters f).authors = SentVal.null) ∧
      (f.keywords = [] → (submittedFilters f).keywords = SentVal.null) ∧
      (f.conference = "" → (submittedFilters f).conference = SentVal.null) ∧
      (f.journal = "" → (submittedFilters f).journal = SentVal.null) ∧
      (∀ n : Int, f.year_min ≠ "" → parseIntJS f.year_min = some n →
        (submittedFilters f).year_min = SentVal.int n) ∧
      (∀ n : Int, f.year_max ≠ "" → parseIntJS f.year_max = some n →
        (submittedFilters f).year_max = SentVal.int n) := by
  intro f
  exact ⟨fun h => by simp [submittedFilters, yearSent, jsTruthyStr, h],
         fun h => by simp [submittedFilters, yearSent, jsTruthyStr, h],
         fun h => by simp [submittedFilters, h],
         fun h => by simp [submittedFilters, h],
         fun h => by simp [submittedFilters, jsTruthyStr, h],
         fun h => by simp [submittedFilters, jsTruthyStr, h],
         fun n hne hp => by simp [submittedFilters, yearSent, jsTruthyStr, hne, hp],
         fun n hne hp => by simp [submittedFilters, yearSent, jsTruthyStr, hne, hp]⟩

/-- Witness for claim C5 on a state with empty fields except year_min. -/
theorem claim_C5_empty_filters_null_witness :
    (submittedFilters { year_min := "2019", year_max := "", authors := []
                      , keywords := [], conference := "", journal := "" }).year_max
        = SentVal.null ∧
    (submittedFilters { year_min := "2019", year_max := "", authors := []
                      , keywords := [], conference := "", journal := "" }).year_min
        = SentVal.int 2019 :=
  ⟨(claim_C5_empty_filters_null _).2.1 rfl,
   (claim_C5_empty_filters_null _).2.2.2.2.2.2.1 2019 (by decide) (by decide)⟩

/-- Claim C9: adding an author (resp. keyword) filter leaves the list
unchanged when the name is empty or already present and otherwise appends it
once at the end; add preserves duplicate-freedom (so every reachable list is
duplicate-free), and removing after adding to a list not containing the name
restores the original list; the keyword operations coincide with the author
operations. -/
theorem claim_C9_filter_list_ops :
    (∀ (a : String) (l : List String), a = "" → addAuthorFilter a l = l) ∧
    (∀ (a : String) (l : List String), a ∈ l → addAuthorFilter a l = l) ∧
    (∀ (a : String) (l : List String), a ≠ "" → a ∉ l →
      addAuthorFilter a l = l ++ [a]) ∧
    (∀ (a : String) (l : List String), l.Nodup → (addAuthorFilter a l).Nodup) ∧
    (∀ (a : String) (l : List String), l.Nodup → (removeAuthorFilter a l).Nodup) ∧
    (∀ (a : String) (l : List String), a ∉ l →
      removeAuthorFilter a (addAuthorFilter a l) = l) ∧
    (∀ (k : String) (l : List String), addKeywordFilter k l = addAuthorFilter k l) ∧
    (∀ (k : String) (l : List String),
      removeKeywordFilter k l = removeAuthorFilter k l) ∧
    (∀ l : List String, ReachableList l → l.Nodup) := by
  have hadd : ∀ (a : String) (l : List String), l.Nodup → (addAuthorFilter a l).Nodup := by
    intro a l hl
    unfold addAuthorFilter
    split
    · next hcond =>
      simp [List.nodup_append, hl, hcond.2]
    · exact hl
  have hrem : ∀ (a : String) (l : List String), l.Nodup →
      (removeAuthorFilter a l).Nodup := by
    intro a l hl
    exact hl.filter _
  refine ⟨?_, ?_, ?_, hadd, hrem, ?_, fun k l => rfl, fun k l => rfl, ?_⟩
  · intro a l ha
    simp [addAuthorFilter, jsTruthyStr, ha]
  · intro a l ha
    simp [addAuthorFilter, ha]
  · intro a l ha hmem
    simp [addAuthorFilter, jsTruthyStr, ha, hmem]
  · intro a l hmem
    by_cases ha : a = ""
    · subst ha
      simp only [addAuthorFilter, jsTruthyStr]
      simp only [ne_eq, not_true_eq_false, false_and, if_false]
      exact List.filter_eq_self.mpr fun b hb => by
        simp only [decide_eq_true_eq]
        exact fun hba => hmem (hba ▸ hb)
    · rw [(by simp [addAuthorFilter, jsTruthyStr, ha, hmem] :
          addAuthorFilter a l = l ++ [a])]
      unfold removeAuthorFilter
      rw [List.filter_append]
      have h1 : l.filter (fun x => decide (x ≠ a)) = l :=
        List.filter_eq_self.mpr fun b hb => by
          simp only [decide_eq_true_eq]
          exact fun hba => hmem (hba ▸ hb)
      have h2 : [a].filter (fun x => decide (x ≠ a)) = [] := by simp
      rw [h1, h2, List.append_nil]
  · intro l hl
    induction hl with
    | init => exact List.nodup_nil
    | add a h ih => exact hadd a _ ih
    | remove a h ih => exact hrem a _ ih
    | reset h ih => exact List.nodup_nil

/-- Witness for claim C9 at concrete inputs. -/
theorem claim_C9_filter_list_ops_witness :
    addAuthorFilter "Knuth" ["Dijkstra"] = ["Dijkstra"] ++ ["Knuth"] ∧
    removeAuthorFilter "Knuth" (addAuthorFilter "Knuth" ["Dijkstra"]) = ["Dijkstra"] ∧
    (addAuthorFilter "Knuth" ["Dijkstra"]).Nodup :=
  ⟨claim_C9_filter_list_ops.2.2.1 "Knuth" ["Dijkstra"] (by decide) (by decide),
   claim_C9_filter_list_ops.2.2.2.2.2.1 "Knuth" ["Dijkstra"] (by decide),
   claim_C9_filter_list_ops.2.2.2.1 "Knuth" ["Dijkstra"] (by decide)⟩

end PaperPlanes.SearchForm

namespace PaperPlanes

/-- Claim C1 (code-bug evaluation): the IndexManagement component invokes
`getIndexStatus`, `rebuildIndexes` and `rollbackIndex` on the api object,
but the api object exported by services/api.js defines none of them (its
method set is search, getFilterOptions, uploadPaper, listAllPapers,
deletePaper, getPaperDownloadUrl), so each invocation evaluates `undefined`
and throws a TypeError at runtime. -/
theorem claim_C1_api_index_methods_missing :
    (∀ m ∈ indexManagementApiCalls, apiDefines m = false) ∧
    apiDefines "search" = true := by
  decide

/-- Witness for claim C1 at the getIndexStatus method. -/
theorem claim_C1_api_index_methods_missing_witness :
    apiDefines "getIndexStatus" = false :=
  claim_C1_api_index_methods_missing.1 "getIndexStatus" (by decide)

/-- The concrete `api.search` argument used to refute claim C2. -/
def c2Request : SearchRequest :=
  { query := "transformers", filters := some (Json.obj [])
  , useParagraphs := some true, limit := none, offset := none }

/-- Counterexample to claim C2: with the paragraph flag supplied, the JSON
body of the search request contains no snake_case `use_paragraphs` field —
the flag travels as the URL query parameter `?use_paragraphs=true` (and the
camelCase `useParagraphs` stays in the body) — and the omitted limit and
offset are not defaulted into the body. -/
theorem claim_C2_counterexample :
    (apiSearch c2Request).url = "/api/search?use_paragraphs=true" ∧
    jsonKeys (serializeSearchRequest c2Request) = ["query", "filters", "useParagraphs"] ∧
    "use_paragraphs" ∉ jsonKeys (serializeSearchRequest c2Request) ∧
    "limit" ∉ jsonKeys (serializeSearchRequest c2Request) ∧
    "offset" ∉ jsonKeys (serializeSearchRequest c2Request) := by
  refine ⟨rfl, rfl, ?_, ?_, ?_⟩ <;> decide

/-- Claim C2 (amended): every `api.search` invocation issues a POST with
JSON content type to `API_BASE_URL ++ "/search"`, with the
`?use_paragraphs=true` query parameter exactly when the camelCase
`useParagraphs` flag is truthy; the JSON body is the searchRequest
serialized as-is — it carries `query`, any supplied `filters` and the
camelCase `useParagraphs`, never a snake_case `use_paragraphs` key — and an
omitted limit or offset is absent from the body rather than defaulted
client-side. -/
theorem claim_C2_amended_search_request :
    ∀ r : SearchRequest,
      (apiSearch r).method = "POST" ∧
      ("Content-Type", "application/json") ∈ (apiSearch r).headers ∧
      (apiSearch r).body = some (serializeSearchRequest r) ∧
      (apiSearch r).url =
        API_BASE_URL ++ "/search"
          ++ (if r.useParagraphs = some true then "?use_paragraphs=true" else "") ∧
      "use_paragraphs" ∉ jsonKeys (serializeSearchRequest r) ∧
      "query" ∈ jsonKeys (serializeSearchRequest r) ∧
      (r.filters.isSome = true → "filters" ∈ jsonKeys (serializeSearchRequest r)) ∧
      (r.useParagraphs.isSome = true →
        "useParagraphs" ∈ jsonKeys (serializeSearchRequest r)) ∧
      (r.limit = none → "limit" ∉ jsonKeys (serializeSearchRequest r)) ∧
      (r.offset = none → "offset" ∉ jsonKeys (serializeSearchRequest r)) := by
  intro r
  obtain ⟨q, fs, u, li, o⟩ := r
  cases fs <;> cases u <;> cases li <;> cases o <;>
    simp [apiSearch, serializeSearchRequest, jsonKeys, API_BASE_URL]

/-- Witness for the amended claim C2 at the concrete request. -/
theorem claim_C2_amended_search_request_witness :
    (apiSearch c2Request).method = "POST" ∧
    "filters" ∈ jsonKeys (serializeSearchRequest c2Request) ∧
    "limit" ∉ jsonKeys (serializeSearchRequest c2Request) :=
  ⟨(claim_C2_amended_search_request c2Request).1,
   (claim_C2_amended_search_request c2Request).2.2.2.2.2.2.1 (by decide),
   (claim_C2_amended_search_request c2Request).2.2.2.2.2.2.2.2.1 rfl⟩

/-- The error response used to refute claim C6: `ok = false`, JSON body with
a present-but-empty `detail` field and a nonempty `message` field. -/
def c6Response : FetchResponse :=
  { ok := false, status := 500, statusText := "Internal Server Error"
  , contentType := some "application/json"
  , jsonBody := Json.obj [("detail", Json.str ""), ("message", Json.str "boom")]
  , textBody := "" }

/-- Counterexample to claim C6: the `detail` field is present (the empty
string) yet the thrown message is the `message` field — `handleResponse`
selects by JS truthiness (`data.detail || data.message || fallback`), not by
presence. -/
theorem claim_C6_counterexample :
    jsGetField (responseData c6Response) "detail" = some (Json.str "") ∧
    handleResponse c6Response = Except.error "boom" := by
  exact ⟨rfl, rfl⟩

/-- Claim C6 (amended): `handleResponse` returns the parsed body (JSON when
the content-type header includes application/json, raw text otherwise)
exactly when `response.ok`; on a non-ok response it never returns normally
and throws with the body's `detail` field when that is truthy (present and
non-empty), else the `message` field when truthy, else the fallback naming
the HTTP status. -/
theorem claim_C6_amended_handleResponse :
    ∀ r : FetchResponse,
      (r.ok = true → handleResponse r = Except.ok (responseData r)) ∧
      (r.ok = true → contentTypeIsJson r = true → handleResponse r = Except.ok r.jsonBody) ∧
      (r.ok = true → contentTypeIsJson r = false →
        handleResponse r = Except.ok (Json.str r.textBody)) ∧
      (r.ok = false → ∀ d : Json, handleResponse r ≠ Except.ok d) ∧
      (r.ok = false → jsTruthyJson (fieldOr (responseData r) "detail") = true →
        handleResponse r =
          Except.error (jsToStringJson (fieldOr (responseData r) "detail"))) ∧
      (r.ok = false → jsTruthyJson (fieldOr (responseData r) "detail") = false →
        jsTruthyJson (fieldOr (responseData r) "message") = true →
        handleResponse r =
          Except.error (jsToStringJson (fieldOr (responseData r) "message"))) ∧
      (r.ok = false → jsTruthyJson (fieldOr (responseData r) "detail") = false →
        jsTruthyJson (fieldOr (responseData r) "message") = false →
        handleResponse r =
          Except.error ("Error: " ++ toString r.status ++ " " ++ r.statusText)) := by
  intro r
  refine ⟨?_, ?_, ?_, ?_, ?_, ?_, ?_⟩
  · intro h
    simp [handleResponse, h]
  · intro h hct
    simp [handleResponse, responseData, h, hct]
  · intro h hct
    simp [handleResponse, responseData, h, hct]
  · intro h d
    simp [handleResponse, h]
  · intro h hd
    simp [handleResponse, h, jsOr, hd]
  · intro h hd hm
    simp [handleResponse, h, jsOr, hd, hm]
  · intro h hd hm
    simp [handleResponse, h, jsOr, hd, hm, jsToStringJson]

/-- An ok JSON response used in the witness for the amended claim C6. -/
def c6OkResponse : FetchResponse :=
  { ok := true, status := 200, statusText := "OK"
  , contentType := some "application/json"
  , jsonBody := Json.obj [("results", Json.arr [])], textBody := "" }

/-- Witness for the amended claim C6 at concrete responses. -/
theorem claim_C6_amended_handleResponse_witness :
    handleResponse c6OkResponse = Except.ok c6OkResponse.jsonBody ∧
    handleResponse c6Response =
      Except.error (jsToStringJson (fieldOr (responseData c6Response) "message")) :=
  ⟨(claim_C6_amended_handleResponse c6OkResponse).2.1 rfl (by decide),
   (claim_C6_amended_handleResponse c6Response).2.2.2.2.2.1 rfl (by decide) (by decide)⟩

end PaperPlanes

namespace PaperPlanes

/-- With paragraph mode off, the extended Abstract block equals the plain
one (the highlighting branch is dead). -/
theorem abstractBlock_eq (q : String) (r : SearchResult) :
    RL0.abstractBlock false q r = RL1.abstractBlock r := by
  unfold RL0.abstractBlock RL1.abstractBlock
  cases r.abstract <;> simp

/-- With paragraph mode off the Matching Paragraphs block renders nothing. -/
theorem mpBlock_false_nil (ep : Bool) (q : String) (r : SearchResult) :
    RL0.matchingParagraphsBlock false ep q r = [] := by
  unfold RL0.matchingParagraphsBlock
  cases r.matching_paragraphs <;> simp

/-- With paragraph mode off the Paragraph Context block renders nothing. -/
theorem ctxBlock_false_nil (ep : Bool) (r : SearchResult) :
    RL0.paragraphContextBlock false ep r = [] := by
  unfold RL0.paragraphContextBlock
  cases r.matching_paragraphs <;> simp

/-- The two components render the same byline. -/
theorem bylineChildren_eq (r : SearchResult) :
    RL0.bylineChildren r = RL1.bylineChildren r := by
  unfold RL0.bylineChildren RL1.bylineChildren
  rw [formatAuthors_RL1_eq_RL0]

/-- The two components render the same card header. -/
theorem cardHeader_eq (r : SearchResult) :
    RL0.cardHeader r = RL1.cardHeader r := by
  unfold RL0.cardHeader RL1.cardHeader
  rw [bylineChildren_eq, formatScore_RL1_eq_RL0]

/-- The two Keywords blocks agree. -/
theorem keywordsBlock_eq (r : SearchResult) :
    RL0.keywordsBlock r = RL1.keywordsBlock r := rfl

/-- The two Download rows agree. -/
theorem downloadRow_eq (r : SearchResult) :
    RL0.downloadRow r = RL1.downloadRow r := rfl

/-- With paragraph mode off the expanded sections agree. -/
theorem expandedSection_eq (eid : Option String) (ep : String → Bool) (q : String)
    (r : SearchResult) :
    RL0.expandedSection false eid ep q r = RL1.expandedSection eid r := by
  unfold RL0.expandedSection RL1.expandedSection
  rw [abstractBlock_eq, mpBlock_false_nil, ctxBlock_false_nil, keywordsBlock_eq,
    downloadRow_eq]
  simp

/-- With paragraph mode off the result cards agree. -/
theorem resultCard_eq (eid : Option String) (ep : String → Bool) (q : String)
    (r : SearchResult) :
    RL0.resultCard false eid ep q r = RL1.resultCard eid r := by
  unfold RL0.resultCard RL1.resultCard
  rw [cardHeader_eq, expandedSection_eq]

/-- Claim C10: with `useParagraphs` false (its default, so also when the
prop is absent) and no result carrying matching paragraphs, the extended
ResultList (src/unnamed/part_000) and the plain ResultList
(src/unnamed/part_001) render identically — same empty-results message,
same result-count header, and per result the same header card and the same
expanded abstract, keywords and download sections. -/
theorem claim_C10_resultlist_equivalence :
    ∀ (results : List SearchResult) (totalCount : Int) (query : String)
      (executionTime : Rat) (expandedId : Option String) (expandedPars : String → Bool),
      (∀ r ∈ results, r.matching_paragraphs = none) →
      RL0.render results totalCount query executionTime false expandedId expandedPars =
        RL1.render results totalCount query executionTime expandedId := by
  intro results tc q et eid ep _
  unfold RL0.render RL1.render
  rw [show RL0.resultCard false eid ep q = RL1.resultCard eid from
    funext fun r => resultCard_eq eid ep q r]
  rfl

/-- A concrete paragraph-free search result for the claim C10 witness. -/
def sampleResult : SearchResult :=
  { paper_id := "p1", title := "T", authors := some ["A"]
  , publication_year := some 2020, conference := some "NeurIPS", journal := none
  , abstract := some "An abstract", keywords := some ["ml"]
  , similarity_score := 9 / 10, matching_paragraphs := none }

/-- Witness for claim C10 at a concrete one-result props value. -/
theorem claim_C10_resultlist_equivalence_witness :
    RL0.render [sampleResult] 1 "q" 1200 false (some "p1") (fun _ => false) =
      RL1.render [sampleResult] 1 "q" 1200 (some "p1") :=
  claim_C10_resultlist_equivalence [sampleResult] 1 "q" 1200 (some "p1") (fun _ => false)
    (by intro r hr; rw [List.mem_singleton.mp hr]; rfl)

end PaperPlanes
